import Mathlib

/-!
Verification of the local data-exchange subsystem of the Doris pipeline
engine (sink half), the `FlushToken` sticky-failure status, and related
routing properties.  The definitions below shallowly embed the C++ source
in `src/be/src/pipeline/pipeline_x/local_exchange/local_exchange_sink_operator.h`
and the `FlushToken` declarations in the memtable-flush header.  Machine
integers are modelled as `Nat` with explicit `% 2^w` truncation where the
C++ code works in `uint32_t`/`uint64_t`.
-/

namespace Doris

/-- Shallow embedding of `doris::Status`: either `OK` or an error carrying a
message.  `InternalError`, `Cancelled` and generic errors are the only
constructors the verified code paths produce. -/
inductive Status where
  | ok : Status
  | internalError (msg : String) : Status
  | cancelled (msg : String) : Status
  | error (msg : String) : Status
deriving DecidableEq, Repr

/-- `Status::ok()` test. -/
def Status.isOk : Status → Bool
  | .ok => true
  | _ => false

/-- Whether a status is an `InternalError`. -/
def Status.isInternalError : Status → Bool
  | .internalError _ => true
  | _ => false

/-! ## PartitionRouter: `LocalExchangeChannelIds` (hash-mode reduction)

C++ source (local_exchange_sink_operator.h, lines 77-82):
```
struct LocalExchangeChannelIds {
    static constexpr auto SHIFT_BITS = 32;
    uint32_t operator()(uint32_t l, uint32_t r) {
        return ((uint64_t)l * (uint64_t)r) >> SHIFT_BITS;
    }
};
```
-/

/-- `LocalExchangeChannelIds::SHIFT_BITS`. -/
def SHIFT_BITS : Nat := 32

/-- `LocalExchangeChannelIds::operator()(uint32_t l, uint32_t r)`:
the arguments are `uint32_t` values (modelled by `% 2^32` truncation),
widened to `uint64_t`, multiplied, shifted right by `SHIFT_BITS`, and the
result truncated back to `uint32_t` on return.  The `uint64_t` product of
two 32-bit values never overflows, so the multiplication is exact. -/
def localExchangeChannelIds (l r : Nat) : Nat :=
  ((l % 2 ^ 32) * (r % 2 ^ 32)) >>> SHIFT_BITS % 2 ^ 32

/-- The reduction the spec prescribes for hash mode, transcribed from the
spec's words: "reduce to `[0, partitionCount)` using a multiply-and-shift
reduction (`(hash * partitionCount) >> 32`)".  Used as the plan-side
reduction for the shuffle half of the refinement claim, whose
implementation is not among the given sources. -/
def specHashReduction (hash partitionCount : Nat) : Nat :=
  (hash * partitionCount) >>> 32

/-- Modelled from the spec: `vectorized::ShuffleChannelIds`, the reduction
functor `init` installs for `BUCKET_HASH_SHUFFLE`
(`Crc32HashPartitioner<vectorized::ShuffleChannelIds>(num_buckets)`,
header lines 112-115), is not among the given sources.  Per the spec,
bucket mode reduces the row's 32-bit hash over the fixed bucket count to a
bucket id, and the spec's hash-mode note ("multiply-and-shift ... rather
than modulo") identifies modulo as the conventional reduction the sink
replaces only in hash mode; the `uint32_t` arguments are modelled with
explicit truncation as elsewhere. -/
def shuffleChannelIds (l r : Nat) : Nat :=
  (l % 2 ^ 32) % (r % 2 ^ 32)

/-- The plan-side reduction of the colocated/bucket strategy, transcribed
from the spec's words: the "bucket id" of bucket mode is derived from the
row's hash over the immutable bucket layout fixed at setup, i.e. the hash
reduced modulo the bucket count (the table lookup that follows maps this
id to an instance index on both sides and so cannot break agreement). -/
def specBucketReduction (hash numBuckets : Nat) : Nat :=
  hash % numBuckets

/-! ## LocalExchangeSinkOperatorX

Sink operator configuration and the three `init` overloads, `prepare`
and `open` (local_exchange_sink_operator.h, lines 84-149). -/

/-- `ExchangeType` (closed set of local-exchange strategies; the header
forward-declares the exchangers for each variant). -/
inductive ExchangeType where
  | hashShuffle
  | bucketHashShuffle
  | passthrough
  | broadcast
  | passToOne
  | adaptivePassthrough
deriving DecidableEq, Repr

/-- Placeholder for a Thrift `TPlanNode` argument; the sink's
`init(const TPlanNode&, RuntimeState*)` ignores everything about it. -/
structure TPlanNode where
  nodeId : Int

/-- Placeholder for a Thrift `TDataSink` argument; the sink's
`init(const TDataSink&)` ignores everything about it. -/
structure TDataSink where
  sinkType : Int

/-- A partition-key expression.  Modelled from the spec: the expression
evaluator itself ("expression evaluation used to compute partition keys")
is an external collaborator, and "a malformed/missing partition-key
expression is a setup-time configuration error".  We retain exactly what
setup needs: whether the expression is well-formed. -/
structure TExpr where
  wellFormed : Bool
deriving DecidableEq, Repr

/-- Modelled from the spec: `vectorized::PartitionerBase::init(texprs)` is
not among the given sources; per the spec, initialization fails fast on a
malformed or missing partition-key expression and succeeds otherwise. -/
def partitionerInit (texprs : List TExpr) : Status :=
  if texprs ≠ [] ∧ ∀ e ∈ texprs, e.wellFormed then Status.ok
  else Status.internalError "malformed or missing partition key expression"

/-- The sink operator's configuration fixed at construction
(`LocalExchangeSinkOperatorX` constructor, lines 87-95): number of
partitions, partition-key expressions, and the bucket/shuffle maps. -/
structure LocalExchangeSinkOperatorX where
  numPartitions : Nat
  texprs : List TExpr

/-- `LocalExchangeSinkOperatorX::init(const TPlanNode&, RuntimeState*)`
(lines 97-99): unconditionally returns
`Status::InternalError("{} should not init with TPlanNode", Base::_name)`. -/
def LocalExchangeSinkOperatorX.initWithTPlanNode
    (op : LocalExchangeSinkOperatorX) (tnode : TPlanNode) : Status :=
  Status.internalError "should not init with TPlanNode"

/-- `LocalExchangeSinkOperatorX::init(const TDataSink&)` (lines 101-103):
unconditionally returns `Status::InternalError` (with the same message
text as the `TPlanNode` overload). -/
def LocalExchangeSinkOperatorX.initWithTDataSink
    (op : LocalExchangeSinkOperatorX) (tsink : TDataSink) : Status :=
  Status.internalError "should not init with TPlanNode"

/-- `LocalExchangeSinkOperatorX::init(ExchangeType type, int num_buckets)`
(lines 105-119): for `HASH_SHUFFLE` builds a
`Crc32HashPartitioner<LocalExchangeChannelIds>(_num_partitions)` and
returns any error of `_partitioner->init(_texprs)`; for
`BUCKET_HASH_SHUFFLE` the same with
`Crc32HashPartitioner<ShuffleChannelIds>(num_buckets)`; every other
exchange type does no partitioner work and returns `Status::OK()`. -/
def LocalExchangeSinkOperatorX.initWithType
    (op : LocalExchangeSinkOperatorX) (t : ExchangeType) (numBuckets : Nat) :
    Status :=
  match t with
  | ExchangeType.hashShuffle => partitionerInit op.texprs
  | ExchangeType.bucketHashShuffle => partitionerInit op.texprs
  | _ => Status.ok

/-- Modelled from the spec: `PartitionerBase::prepare` is not among the
given sources; setup-time preparation of a well-formed expression list
succeeds, a malformed one fails fast. -/
def partitionerPrepare (texprs : List TExpr) : Status :=
  if texprs ≠ [] ∧ ∀ e ∈ texprs, e.wellFormed then Status.ok
  else Status.internalError "prepare failed on partition key expression"

/-- `LocalExchangeSinkOperatorX::prepare(RuntimeState*)` (lines 121-127):
for the two hash types, returns any error of `_partitioner->prepare`;
otherwise `Status::OK()`. -/
def LocalExchangeSinkOperatorX.prepare
    (op : LocalExchangeSinkOperatorX) (t : ExchangeType) : Status :=
  match t with
  | ExchangeType.hashShuffle => partitionerPrepare op.texprs
  | ExchangeType.bucketHashShuffle => partitionerPrepare op.texprs
  | _ => Status.ok

/-- Modelled from the spec: `PartitionerBase::open` is not among the given
sources; opening a well-formed expression list succeeds. -/
def partitionerOpen (texprs : List TExpr) : Status :=
  if texprs ≠ [] ∧ ∀ e ∈ texprs, e.wellFormed then Status.ok
  else Status.internalError "open failed on partition key expression"

/-- `LocalExchangeSinkOperatorX::open(RuntimeState*)` (lines 129-135):
for the two hash types, returns any error of `_partitioner->open`;
otherwise `Status::OK()`. -/
def LocalExchangeSinkOperatorX.openOp
    (op : LocalExchangeSinkOperatorX) (t : ExchangeType) : Status :=
  match t with
  | ExchangeType.hashShuffle => partitionerOpen op.texprs
  | ExchangeType.bucketHashShuffle => partitionerOpen op.texprs
  | _ => Status.ok

/-! ## Rows and the per-row routing pipeline -/

/-- A row of a batch: the values of the configured partition-key columns
and the remaining payload columns.  Column values are modelled as `Nat`. -/
structure Row where
  keyCols : List Nat
  payload : List Nat
deriving DecidableEq, Repr

/-- Modelled from the spec: the CRC32 hash of `Crc32HashPartitioner` is an
external collaborator ("column-wise key extraction for hashing") whose
implementation is not among the given sources.  Per the spec it is a
deterministic 32-bit hash per row over the configured partition-key
columns; we model it as a deterministic fold over the key column values,
truncated to 32 bits. -/
def crc32Hash (keyCols : List Nat) : Nat :=
  (keyCols.foldl (fun acc v => (acc * 1000003 + v) % 2 ^ 32) 5381) % 2 ^ 32

/-- The hash value is a 32-bit quantity. -/
theorem crc32Hash_lt (keyCols : List Nat) : crc32Hash keyCols < 2 ^ 32 :=
  Nat.mod_lt _ (by norm_num)

/-- Shuffle-mode row routing after a successful setup: hash the key
columns with CRC32 and reduce with `LocalExchangeChannelIds` (this is the
partitioner `Crc32HashPartitioner<LocalExchangeChannelIds>(_num_partitions)`
installed by `init` for `HASH_SHUFFLE`). -/
def shuffleRouteRow (r : Row) (numPartitions : Nat) : Nat :=
  localExchangeChannelIds (crc32Hash r.keyCols) numPartitions

/-- Modelled from the spec: bucket-mode routing ("partition index is
looked up from a precomputed table mapping a bucket id ... to a target
instance index; table is supplied at setup and is immutable thereafter").
The bucket id is derived deterministically from the row's key columns. -/
def bucketRouteRow (r : Row) (numBuckets : Nat) (table : List Nat) : Nat :=
  (table.getD (crc32Hash r.keyCols % numBuckets) 0)

/-- The per-row partition computation as exposed to the sink after a
successful setup, paired with the `Status` the row path reports.  Modelled
from the spec: "routing never raises at the row level" — the row path is
hash plus reduction, both total functions, so the status is always `OK`. -/
def routeRowWithStatus (r : Row) (numPartitions : Nat) : Status × Nat :=
  (Status.ok, shuffleRouteRow r numPartitions)

/-! ## DependencyGate -/

/-- The readiness state of a dependency gate.  Modelled from the spec: the
`Dependency` base class of `LocalExchangeSinkDependency` is not among the
given sources; per the spec a gate is a level-triggered boolean readiness
object ("tracks a boolean ... blocked condition"). -/
structure DependencyGate where
  ready : Bool
deriving DecidableEq, Repr

/-- `signal()`: mark the gate ready.  Modelled from the spec: "a gate
transitions from blocked to ready only via an explicit signal"; no count
is kept. -/
def DependencyGate.signal (g : DependencyGate) : DependencyGate :=
  { g with ready := true }

/-- `block()`: mark the gate blocked (the task owner registers it with the
scheduler instead of blocking a thread). -/
def DependencyGate.block (g : DependencyGate) : DependencyGate :=
  { g with ready := false }

/-- `isReady()`. -/
def DependencyGate.isReady (g : DependencyGate) : Bool := g.ready

/-- `k` consecutive `signal()` calls with no intervening readiness check. -/
def signalTimes : Nat → DependencyGate → DependencyGate
  | 0, g => g
  | k + 1, g => signalTimes k g.signal

/-! ## FlushToken (sticky failure status)

The `FlushToken` class declaration is in the sources (memtable-flush
header); the bodies of `submit`, `cancel` and the flush tasks are not. -/

/-- Modelled from the spec: the state of a `FlushToken` — the bodies of
`FlushToken::submit`/`cancel`/`_flush_memtable` are not among the given
sources.  The header documents `_flush_status` with "Once its value is set
to Failed, it cannot return to SUCCESS", and the class comment: "If a
memtable flush fails, then: 1. Immediately disallow submission of any
subsequent memtable".  `pending` holds the ids of submitted memtables
waiting to be flushed. -/
structure FlushToken where
  flushStatus : Status
  pending : List Nat
deriving DecidableEq, Repr

/-- The compare-and-swap style failure latch: set the status to a failed
value only if it is still `OK`; a status that is already failed is never
overwritten (first failure wins) and never reverts. -/
def FlushToken.setFailedOnce (t : FlushToken) (err : Status) : FlushToken :=
  if t.flushStatus.isOk then { t with flushStatus := err } else t

/-- `FlushToken::cancel()`: latch a cancelled status and remove all tasks
still in the queue ("And remove all tasks in the queue", header comment). -/
def FlushToken.cancel (t : FlushToken) : FlushToken :=
  { t.setFailedOnce (Status.cancelled "flush token cancelled") with
      pending := [] }

/-- `FlushToken::submit(mem_table)`: refused with the latched failure when
the token has already failed; otherwise the memtable joins the queue. -/
def FlushToken.submit (t : FlushToken) (memTableId : Nat) :
    FlushToken × Status :=
  if t.flushStatus.isOk then
    ({ t with pending := t.pending ++ [memTableId] }, Status.ok)
  else (t, t.flushStatus)

/-- A flush task completing: on success the memtable leaves the queue; on
failure the error is latched via the compare-and-swap. -/
def FlushToken.finishFlush (t : FlushToken) (memTableId : Nat)
    (result : Status) : FlushToken :=
  if result.isOk then { t with pending := t.pending.erase memTableId }
  else t.setFailedOnce result

/-- The operations any thread may perform on a flush token. -/
inductive FlushOp where
  | submitOp (memTableId : Nat)
  | cancelOp
  | finishOp (memTableId : Nat) (result : Status)
deriving DecidableEq, Repr

/-- One step of the flush-token state machine. -/
def FlushToken.step (t : FlushToken) : FlushOp → FlushToken
  | FlushOp.submitOp i => (t.submit i).1
  | FlushOp.cancelOp => t.cancel
  | FlushOp.finishOp i res => t.finishFlush i res

/-- Run a sequence of operations on a flush token. -/
def FlushToken.run (t : FlushToken) : List FlushOp → FlushToken
  | [] => t
  | o :: os => (t.step o).run os

/-! ## Passthrough exchanger -/

/-- Modelled from the spec: `PassthroughExchanger` and
`LocalExchangeSinkLocalState::init` bodies are not among the given sources
(the header only declares `int _channel_id = 0`).  Per the spec, producer
`p` "always enqueues into the single partition assigned to consumer
`p mod consumerCount` at setup; no per-row computation". -/
structure PassthroughLocalState where
  channelId : Nat
deriving DecidableEq, Repr

/-- Setup assigns producer `p` the fixed channel `p % consumerCount`. -/
def passthroughSetup (p consumerCount : Nat) : PassthroughLocalState :=
  ⟨p % consumerCount⟩

/-- Per-partition batch queues of the shared state. -/
def PartitionQueues : Type := Nat → List (List Row)

/-- `sinkBatch` for passthrough: the whole batch goes to the producer's
fixed channel; the local state (and hence the assignment) is not touched
and no row of the batch is examined. -/
def passthroughSink (ls : PassthroughLocalState) (queues : PartitionQueues)
    (batch : List Row) : PassthroughLocalState × PartitionQueues :=
  (ls, fun q => if q = ls.channelId then queues q ++ [batch] else queues q)

/-- Sink a whole sequence of batches through the passthrough exchanger. -/
def passthroughSinkAll (ls : PassthroughLocalState) (queues : PartitionQueues) :
    List (List Row) → PassthroughLocalState × PartitionQueues
  | [] => (ls, queues)
  | b :: bs =>
    passthroughSinkAll (passthroughSink ls queues b).1
      (passthroughSink ls queues b).2 bs

/-! ## Per-partition FIFO queue -/

/-- Operations on one partition's queue of the shared state: a producer
enqueues a row, a consumer dequeues the oldest row. -/
inductive QueueOp where
  | enq (producer : Nat) (row : Nat)
  | deq
deriving DecidableEq, Repr

/-- Modelled from the spec: the per-partition bounded FIFO queue of
`ExchangeSharedState` is not among the given sources; per the spec "queue
is FIFO per partition".  `queue` is the live content in arrival order and
`dequeued` records everything handed to the consumer, in hand-out order;
entries are tagged with the submitting producer. -/
structure PartitionQueue where
  queue : List (Nat × Nat)
  dequeued : List (Nat × Nat)
deriving DecidableEq, Repr

/-- One queue step: `enq` appends at the tail, `deq` pops the head (and is
a no-op on an empty queue: the consumer blocks on the gate instead). -/
def qstep (s : PartitionQueue) : QueueOp → PartitionQueue
  | QueueOp.enq p r => { s with queue := s.queue ++ [(p, r)] }
  | QueueOp.deq =>
    match s.queue with
    | [] => s
    | x :: rest => { queue := rest, dequeued := s.dequeued ++ [x] }

/-- Run a sequence of queue operations. -/
def qrun (s : PartitionQueue) : List QueueOp → PartitionQueue
  | [] => s
  | o :: os => qrun (qstep s o) os

/-- The rows submitted into the partition by the operation sequence, in
submission order, tagged with their producer. -/
def enqTrace (ops : List QueueOp) : List (Nat × Nat) :=
  ops.filterMap fun o =>
    match o with
    | QueueOp.enq p r => some (p, r)
    | QueueOp.deq => none

/-! ## AdaptivePassthrough exchanger -/

/-- How one sunk batch was routed. -/
inductive RouteMode where
  | passthroughMode
  | shuffleMode
deriving DecidableEq, Repr

/-- Modelled from the spec: `AdaptivePassthroughExchanger` is not among
the given sources.  Per the spec it keeps one shared one-shot flag: it
"behaves as Passthrough until a skew monitor ... detects" imbalance, "at
that point it permanently reclassifies itself as Shuffle for all
subsequent batches on that shared state" via "a compare-and-swap style
one-shot flag". -/
structure AdaptiveSharedState where
  isShuffled : Bool
deriving DecidableEq, Repr

/-- One `sinkBatch` on the adaptive exchanger by any producer: if the
shared flag is already set, route by hash shuffle; otherwise, if this
producer's skew monitor fires, set the flag (one-shot) and route this and
all later batches by shuffle; otherwise route by passthrough. -/
def adaptiveSink (st : AdaptiveSharedState) (skewDetected : Bool) :
    AdaptiveSharedState × RouteMode :=
  if st.isShuffled then (st, RouteMode.shuffleMode)
  else if skewDetected then (⟨true⟩, RouteMode.shuffleMode)
  else (st, RouteMode.passthroughMode)

/-- Run a sequence of sink events (each event: did that producer's skew
monitor fire?) and record how each batch was routed. -/
def adaptiveRun (st : AdaptiveSharedState) :
    List Bool → AdaptiveSharedState × List RouteMode
  | [] => (st, [])
  | s :: ss =>
    ((adaptiveRun (adaptiveSink st s).1 ss).1,
      (adaptiveSink st s).2 :: (adaptiveRun (adaptiveSink st s).1 ss).2)

end Doris

namespace Doris

/-! ## Theorems -/

/-- Helper: on 32-bit inputs the multiply-and-shift functor equals the
64-bit formula and lands in `[0, n)` for positive `n`. -/
theorem localExchangeChannelIds_eval (h n : Nat) (hh : h < 2 ^ 32)
    (hn : n < 2 ^ 32) :
    localExchangeChannelIds h n = (h * n) >>> 32 ∧
      (1 ≤ n → localExchangeChannelIds h n < n) := by
  have hmod : h % 2 ^ 32 = h := Nat.mod_eq_of_lt hh
  have nmod : n % 2 ^ 32 = n := Nat.mod_eq_of_lt hn
  have hdiv : h * n / 2 ^ 32 < 2 ^ 32 := by
    apply Nat.div_lt_of_lt_mul
    nlinarith
  constructor
  · unfold localExchangeChannelIds SHIFT_BITS
    rw [hmod, nmod, Nat.shiftRight_eq_div_pow]
    exact Nat.mod_eq_of_lt hdiv
  · intro hn1
    unfold localExchangeChannelIds SHIFT_BITS
    rw [hmod, nmod, Nat.shiftRight_eq_div_pow]
    have hlt : h * n / 2 ^ 32 < n := by
      apply Nat.div_lt_of_lt_mul
      nlinarith
    exact Nat.lt_of_le_of_lt (Nat.mod_le _ _) hlt

/-- C1: for every 32-bit hash value `h` and 32-bit partition count `n`,
`LocalExchangeChannelIds` computes exactly `((uint64)h * (uint64)n) >> 32`
in 64-bit arithmetic, and for `n ≥ 1` the result lies in `[0, n)`. -/
theorem localExchangeChannelIds_spec (h n : Nat) (hh : h < 2 ^ 32)
    (hn : n < 2 ^ 32) :
    localExchangeChannelIds h n = (h * n) >>> 32 ∧
      (1 ≤ n → localExchangeChannelIds h n < n) :=
  localExchangeChannelIds_eval h n hh hn

/-- Witness for C1 at `h = 3000000000`, `n = 7`. -/
theorem localExchangeChannelIds_spec_witness :
    localExchangeChannelIds 3000000000 7 = (3000000000 * 7) >>> 32 ∧
      (1 ≤ 7 → localExchangeChannelIds 3000000000 7 < 7) :=
  localExchangeChannelIds_spec 3000000000 7 (by norm_num) (by norm_num)

/-- C10: for every `TPlanNode` and every `TDataSink` argument, the two
overloads `init(const TPlanNode&, RuntimeState*)` and
`init(const TDataSink&)` of `LocalExchangeSinkOperatorX` always return an
`InternalError` status and never `OK`. -/
theorem init_tplan_tsink_internal_error (op : LocalExchangeSinkOperatorX)
    (tnode : TPlanNode) (tsink : TDataSink) :
    (op.initWithTPlanNode tnode).isInternalError = true ∧
      (op.initWithTPlanNode tnode).isOk = false ∧
      (op.initWithTDataSink tsink).isInternalError = true ∧
      (op.initWithTDataSink tsink).isOk = false := by
  refine ⟨rfl, rfl, rfl, rfl⟩

/-- C3: for both hash-type strategies the sink's hash-to-partition
reduction is bit-identical to the reduction of the corresponding strategy
in the query plan, for every 32-bit hash value and every 32-bit
partition/bucket count: the Shuffle functor `LocalExchangeChannelIds`
agrees with the plan-side multiply-and-shift reduction, and the
BucketShuffle functor `ShuffleChannelIds` agrees with the plan-side
colocated/bucket reduction. -/
theorem sink_reductions_bit_identical_to_plan (h n : Nat)
    (hh : h < 2 ^ 32) (hn : n < 2 ^ 32) :
    localExchangeChannelIds h n = specHashReduction h n ∧
      shuffleChannelIds h n = specBucketReduction h n := by
  refine ⟨(localExchangeChannelIds_eval h n hh hn).1, ?_⟩
  unfold shuffleChannelIds specBucketReduction
  rw [Nat.mod_eq_of_lt hh, Nat.mod_eq_of_lt hn]

/-- Witness for C3 at `h = 123456789`, `n = 16`, covering both modes. -/
theorem sink_reductions_bit_identical_to_plan_witness :
    localExchangeChannelIds 123456789 16 = specHashReduction 123456789 16 ∧
      shuffleChannelIds 123456789 16 = specBucketReduction 123456789 16 :=
  sink_reductions_bit_identical_to_plan 123456789 16 (by norm_num)
    (by norm_num)

/-- C2: the partition chosen by the Shuffle/BucketShuffle router is a
deterministic pure function of the row's key columns: any two rows with
the same key-column composition (regardless of payload, producer or when
the evaluation happens) receive the same partition index, in both shuffle
and bucket mode. -/
theorem router_deterministic (r1 r2 : Row) (n nb : Nat) (table : List Nat)
    (hkeys : r1.keyCols = r2.keyCols) :
    shuffleRouteRow r1 n = shuffleRouteRow r2 n ∧
      bucketRouteRow r1 nb table = bucketRouteRow r2 nb table := by
  unfold shuffleRouteRow bucketRouteRow
  rw [hkeys]
  exact ⟨rfl, rfl⟩

/-- Witness for C2: two rows with equal keys and different payloads. -/
theorem router_deterministic_witness :
    shuffleRouteRow ⟨[1, 2], [3]⟩ 8 = shuffleRouteRow ⟨[1, 2], [9, 9]⟩ 8 ∧
      bucketRouteRow ⟨[1, 2], [3]⟩ 4 [0, 1, 2, 3] =
        bucketRouteRow ⟨[1, 2], [9, 9]⟩ 4 [0, 1, 2, 3] :=
  router_deterministic ⟨[1, 2], [3]⟩ ⟨[1, 2], [9, 9]⟩ 8 4 [0, 1, 2, 3] rfl

/-- C5: a malformed or missing partition-key expression makes every stage
of setup (`init`, `prepare`, `open`) of a hash-type sink return an error,
and once `init` has succeeded, computing a partition index for a row never
returns an error (and the index is in range for a positive 32-bit
partition count). -/
theorem setup_fails_fast_routing_total (op : LocalExchangeSinkOperatorX)
    (t : ExchangeType) (nb : Nat)
    (ht : t = ExchangeType.hashShuffle ∨ t = ExchangeType.bucketHashShuffle) :
    (¬(op.texprs ≠ [] ∧ ∀ e ∈ op.texprs, e.wellFormed) →
        (op.initWithType t nb).isOk = false ∧ (op.prepare t).isOk = false ∧
          (op.openOp t).isOk = false) ∧
      ((op.initWithType t nb).isOk = true →
        ∀ (r : Row) (n : Nat), (routeRowWithStatus r n).1 = Status.ok ∧
          (1 ≤ n → n < 2 ^ 32 → (routeRowWithStatus r n).2 < n)) := by
  constructor
  · intro hbad
    rcases ht with h | h <;> subst h <;>
      simp [LocalExchangeSinkOperatorX.initWithType,
        LocalExchangeSinkOperatorX.prepare, LocalExchangeSinkOperatorX.openOp,
        partitionerInit, partitionerPrepare, partitionerOpen, hbad, Status.isOk]
  · intro hok r n
    refine ⟨rfl, fun hn1 hn32 => ?_⟩
    have := (localExchangeChannelIds_eval (crc32Hash r.keyCols) n
      (crc32Hash_lt r.keyCols) hn32).2 hn1
    simpa [routeRowWithStatus, shuffleRouteRow] using this

/-- Witness for C5: a sink with one malformed expression fails all three
setup stages, and a well-formed sink routes rows without error. -/
theorem setup_fails_fast_routing_total_witness :
    ((ExchangeType.hashShuffle = ExchangeType.hashShuffle ∨
        ExchangeType.hashShuffle = ExchangeType.bucketHashShuffle) ∧
      (¬((⟨4, [⟨false⟩]⟩ : LocalExchangeSinkOperatorX).texprs ≠ [] ∧
          ∀ e ∈ (⟨4, [⟨false⟩]⟩ : LocalExchangeSinkOperatorX).texprs,
            e.wellFormed))) ∧
      (((⟨4, [⟨false⟩]⟩ : LocalExchangeSinkOperatorX).initWithType
            ExchangeType.hashShuffle 0).isOk = false ∧
        ((⟨4, [⟨false⟩]⟩ : LocalExchangeSinkOperatorX).prepare
            ExchangeType.hashShuffle).isOk = false ∧
        ((⟨4, [⟨false⟩]⟩ : LocalExchangeSinkOperatorX).openOp
            ExchangeType.hashShuffle).isOk = false) := by
  refine ⟨⟨Or.inl rfl, by decide⟩, ?_⟩
  exact (setup_fails_fast_routing_total ⟨4, [⟨false⟩]⟩ ExchangeType.hashShuffle 0
    (Or.inl rfl)).1 (by decide)

/-- Helper: `signal` is idempotent on the gate state. -/
theorem signal_signal (g : DependencyGate) : g.signal.signal = g.signal := rfl

/-- Helper: signalling an already-signalled gate any number of further
times leaves it signalled. -/
theorem signalTimes_signal (k : Nat) (g : DependencyGate) :
    signalTimes k g.signal = g.signal := by
  induction k generalizing g with
  | zero => rfl
  | succ k ih => rw [signalTimes, signal_signal, ih]

/-- C7: calling `signal()` `k` times for any `k ≥ 1` before the next
readiness check leaves the gate in exactly the same state as calling
`signal()` once — signalling is idempotent and level-triggered, with no
signal counting. -/
theorem signal_idempotent (g : DependencyGate) (k : Nat) (hk : 1 ≤ k) :
    signalTimes k g = g.signal := by
  obtain ⟨m, rfl⟩ : ∃ m, k = m + 1 := ⟨k - 1, by omega⟩
  rw [signalTimes, signalTimes_signal]

/-- Witness for C7: three signals on a blocked gate equal one signal. -/
theorem signal_idempotent_witness :
    1 ≤ 3 ∧ signalTimes 3 ⟨false⟩ = DependencyGate.signal ⟨false⟩ :=
  ⟨by decide, signal_idempotent ⟨false⟩ 3 (by decide)⟩

/-- Helper for C6: no single operation changes an already-failed status. -/
theorem FlushToken.step_keeps_failure (t : FlushToken) (o : FlushOp)
    (h : t.flushStatus.isOk = false) :
    (t.step o).flushStatus = t.flushStatus := by
  cases o with
  | submitOp i => simp [FlushToken.step, FlushToken.submit, h]
  | cancelOp =>
    simp [FlushToken.step, FlushToken.cancel, FlushToken.setFailedOnce, h]
  | finishOp i res =>
    simp only [FlushToken.step]
    by_cases hr : res.isOk = true
    · simp [FlushToken.finishFlush, hr]
    · simp [FlushToken.finishFlush, FlushToken.setFailedOnce, hr, h]

/-- Helper for C6: no operation sequence changes an already-failed
status. -/
theorem FlushToken.run_keeps_failure (t : FlushToken) (ops : List FlushOp)
    (h : t.flushStatus.isOk = false) :
    (t.run ops).flushStatus = t.flushStatus := by
  induction ops generalizing t with
  | nil => rfl
  | cons o os ih =>
    rw [FlushToken.run]
    have hs := t.step_keeps_failure o h
    rw [ih (t.step o) (by rw [hs]; exact h), hs]

/-- C6: the shared flush status is sticky and cancel is idempotent: once
the status holds a failed value, no sequence of submit/cancel/flush
operations ever changes it (in particular it never returns to success),
every subsequent submit observes the failure and is refused with the token
unchanged, and cancelling again leaves the state unchanged. -/
theorem flush_status_sticky_cancel_idempotent (t : FlushToken)
    (ops : List FlushOp) (i : Nat) (hfail : t.flushStatus.isOk = false) :
    (t.run ops).flushStatus = t.flushStatus ∧
      (t.submit i).1 = t ∧ (t.submit i).2 = t.flushStatus ∧
      t.cancel.cancel = t.cancel := by
  refine ⟨t.run_keeps_failure ops hfail, ?_, ?_, ?_⟩
  · simp [FlushToken.submit, hfail]
  · simp [FlushToken.submit, hfail]
  · have h1 : t.setFailedOnce (Status.cancelled "flush token cancelled") = t := by
      simp [FlushToken.setFailedOnce, hfail]
    have h2 : t.cancel = { t with pending := [] } := by
      rw [FlushToken.cancel, h1]
    have h3 : ({ t with pending := [] } : FlushToken).setFailedOnce
        (Status.cancelled "flush token cancelled") = { t with pending := [] } := by
      simp [FlushToken.setFailedOnce, hfail]
    rw [h2, FlushToken.cancel, h3]

/-- Witness for C6 on a token that latched an upstream flush error. -/
theorem flush_status_sticky_witness :
    ((⟨Status.error "io error", [1, 2]⟩ : FlushToken).run
          [FlushOp.submitOp 3, FlushOp.cancelOp,
            FlushOp.finishOp 1 Status.ok]).flushStatus =
        (⟨Status.error "io error", [1, 2]⟩ : FlushToken).flushStatus ∧
      ((⟨Status.error "io error", [1, 2]⟩ : FlushToken).submit 7).1 =
        (⟨Status.error "io error", [1, 2]⟩ : FlushToken) ∧
      ((⟨Status.error "io error", [1, 2]⟩ : FlushToken).submit 7).2 =
        (⟨Status.error "io error", [1, 2]⟩ : FlushToken).flushStatus ∧
      (⟨Status.error "io error", [1, 2]⟩ : FlushToken).cancel.cancel =
        (⟨Status.error "io error", [1, 2]⟩ : FlushToken).cancel :=
  flush_status_sticky_cancel_idempotent ⟨Status.error "io error", [1, 2]⟩
    [FlushOp.submitOp 3, FlushOp.cancelOp, FlushOp.finishOp 1 Status.ok] 7 rfl

/-- Helper for C4: sinking any batch sequence leaves the local state (and
its fixed channel assignment) untouched, appends every batch, in order, to
the assigned channel's queue, and leaves every other partition's queue
unchanged. -/
theorem passthroughSinkAll_fixed (ls : PassthroughLocalState)
    (Q : PartitionQueues) (bs : List (List Row)) :
    (passthroughSinkAll ls Q bs).1 = ls ∧
      (passthroughSinkAll ls Q bs).2 ls.channelId = Q ls.channelId ++ bs ∧
      ∀ q, q ≠ ls.channelId → (passthroughSinkAll ls Q bs).2 q = Q q := by
  induction bs generalizing Q with
  | nil => exact ⟨rfl, by simp [passthroughSinkAll], fun q hq => rfl⟩
  | cons b bs ih =>
    have e : passthroughSinkAll ls Q (b :: bs) =
        passthroughSinkAll ls
          (fun q => if q = ls.channelId then Q q ++ [b] else Q q) bs := rfl
    rw [e]
    obtain ⟨h1, h2, h3⟩ :=
      ih (fun q => if q = ls.channelId then Q q ++ [b] else Q q)
    refine ⟨h1, ?_, ?_⟩
    · rw [h2]
      simp
    · intro q hq
      rw [h3 q hq]
      simp [hq]

/-- C4: for the Passthrough exchanger, every batch sunk by producer `p`
is enqueued into the single partition `p % consumerCount` assigned at
setup; the assignment is not modified by any number of `sinkBatch` calls
and no other partition ever receives a batch from `p`. -/
theorem passthrough_fixed_partition (p n : Nat) (Q : PartitionQueues)
    (bs : List (List Row)) :
    (passthroughSinkAll (passthroughSetup p n) Q bs).1 =
        passthroughSetup p n ∧
      (passthroughSinkAll (passthroughSetup p n) Q bs).2 (p % n) =
        Q (p % n) ++ bs ∧
      ∀ q, q ≠ p % n →
        (passthroughSinkAll (passthroughSetup p n) Q bs).2 q = Q q :=
  passthroughSinkAll_fixed (passthroughSetup p n) Q bs

/-- Witness for C4: producer 5 with 3 consumers sinks two batches; both
land in partition `5 % 3 = 2` and partition 0 stays empty. -/
theorem passthrough_fixed_partition_witness :
    (passthroughSinkAll (passthroughSetup 5 3)
          (fun _ => ([] : List (List Row)))
          [[⟨[1], []⟩], [⟨[2], []⟩]]).1 = passthroughSetup 5 3 ∧
      (passthroughSinkAll (passthroughSetup 5 3)
            (fun _ => ([] : List (List Row)))
            [[⟨[1], []⟩], [⟨[2], []⟩]]).2 (5 % 3) =
        (fun _ => ([] : List (List Row))) (5 % 3) ++
          [[⟨[1], []⟩], [⟨[2], []⟩]] ∧
      (passthroughSinkAll (passthroughSetup 5 3)
            (fun _ => ([] : List (List Row)))
            [[⟨[1], []⟩], [⟨[2], []⟩]]).2 0 =
        (fun _ => ([] : List (List Row))) 0 :=
  ⟨(passthrough_fixed_partition 5 3 (fun _ => [])
      [[⟨[1], []⟩], [⟨[2], []⟩]]).1,
    (passthrough_fixed_partition 5 3 (fun _ => [])
      [[⟨[1], []⟩], [⟨[2], []⟩]]).2.1,
    (passthrough_fixed_partition 5 3 (fun _ => [])
      [[⟨[1], []⟩], [⟨[2], []⟩]]).2.2 0 (by decide)⟩

/-- Helper for C8: everything handed to the consumer followed by the live
queue content equals the prior state's content plus the submission
trace. -/
theorem qrun_trace (s : PartitionQueue) (ops : List QueueOp) :
    (qrun s ops).dequeued ++ (qrun s ops).queue =
      s.dequeued ++ (s.queue ++ enqTrace ops) := by
  induction ops generalizing s with
  | nil => simp [qrun, enqTrace]
  | cons o os ih =>
    cases o with
    | enq p r =>
      rw [qrun]
      have e : qstep s (QueueOp.enq p r) =
          ⟨s.queue ++ [(p, r)], s.dequeued⟩ := rfl
      rw [e, ih]
      simp [enqTrace]
    | deq =>
      rw [qrun]
      cases hq : s.queue with
      | nil =>
        have e : qstep s QueueOp.deq = s := by simp [qstep, hq]
        rw [e, ih]
        simp [enqTrace, hq]
      | cons x rest =>
        have e : qstep s QueueOp.deq = ⟨rest, s.dequeued ++ [x]⟩ := by
          simp [qstep, hq]
        rw [e, ih]
        simp [enqTrace, hq]

/-- C8: starting from an empty partition queue, after any sequence of
enqueues and dequeues the rows handed to the consumer followed by the rows
still queued are exactly the submitted rows in submission order (so each
row is dequeued at most once, and exactly once when the queue drains);
restricting to any single producer `p`, the dequeued rows followed by the
still-queued rows are exactly `p`'s rows in `p`'s submission order
(FIFO per producer per partition). -/
theorem fifo_per_producer_exactly_once (ops : List QueueOp) (p : Nat) :
    (qrun ⟨[], []⟩ ops).dequeued ++ (qrun ⟨[], []⟩ ops).queue =
        enqTrace ops ∧
      ((qrun ⟨[], []⟩ ops).dequeued.filter fun e => e.1 == p) ++
          ((qrun ⟨[], []⟩ ops).queue.filter fun e => e.1 == p) =
        (enqTrace ops).filter (fun e => e.1 == p) ∧
      ((qrun ⟨[], []⟩ ops).queue = [] →
        (qrun ⟨[], []⟩ ops).dequeued = enqTrace ops) := by
  have h := qrun_trace ⟨[], []⟩ ops
  simp at h
  refine ⟨h, ?_, ?_⟩
  · rw [← List.filter_append, h]
  · intro hempty
    rw [hempty] at h
    simpa using h

/-- Witness for C8: three rows from producers 0, 1, 0 are enqueued and
then drained; producer 0's rows come out in submission order and the
drained queue has handed out exactly the trace. -/
theorem fifo_per_producer_exactly_once_witness :
    ((qrun ⟨[], []⟩ [QueueOp.enq 0 10, QueueOp.enq 1 20, QueueOp.enq 0 30,
            QueueOp.deq, QueueOp.deq, QueueOp.deq]).dequeued.filter
          fun e => e.1 == 0) ++
        ((qrun ⟨[], []⟩ [QueueOp.enq 0 10, QueueOp.enq 1 20,
              QueueOp.enq 0 30, QueueOp.deq, QueueOp.deq,
              QueueOp.deq]).queue.filter fun e => e.1 == 0) =
      (enqTrace [QueueOp.enq 0 10, QueueOp.enq 1 20, QueueOp.enq 0 30,
          QueueOp.deq, QueueOp.deq, QueueOp.deq]).filter
        (fun e => e.1 == 0) ∧
      (qrun ⟨[], []⟩ [QueueOp.enq 0 10, QueueOp.enq 1 20, QueueOp.enq 0 30,
          QueueOp.deq, QueueOp.deq, QueueOp.deq]).dequeued =
        enqTrace [QueueOp.enq 0 10, QueueOp.enq 1 20, QueueOp.enq 0 30,
          QueueOp.deq, QueueOp.deq, QueueOp.deq] :=
  ⟨(fifo_per_producer_exactly_once [QueueOp.enq 0 10, QueueOp.enq 1 20,
      QueueOp.enq 0 30, QueueOp.deq, QueueOp.deq, QueueOp.deq] 0).2.1,
    (fifo_per_producer_exactly_once [QueueOp.enq 0 10, QueueOp.enq 1 20,
      QueueOp.enq 0 30, QueueOp.deq, QueueOp.deq, QueueOp.deq] 0).2.2
      (by decide)⟩

/-- C9: AdaptivePassthrough behaves as Passthrough while the shared flag
is unset and no skew fires, and the switch is one-directional and
shared-state-wide: on a shared state whose flag is set, the flag stays set
through any further sink sequence and every subsequent batch, from any
producer, is routed in shuffle mode (never passthrough). -/
theorem adaptive_switch_one_way (st : AdaptiveSharedState)
    (evs : List Bool) :
    (st.isShuffled = false → (∀ b ∈ evs, b = false) →
        (adaptiveRun st evs).1 = st ∧
          ∀ m ∈ (adaptiveRun st evs).2, m = RouteMode.passthroughMode) ∧
      (st.isShuffled = true →
        (adaptiveRun st evs).1.isShuffled = true ∧
          ∀ m ∈ (adaptiveRun st evs).2, m = RouteMode.shuffleMode) := by
  induction evs generalizing st with
  | nil =>
    exact ⟨fun h _ => ⟨rfl, by simp [adaptiveRun]⟩,
      fun h => ⟨h, by simp [adaptiveRun]⟩⟩
  | cons s ss ih =>
    constructor
    · intro hoff hall
      have hs : s = false := hall s (by simp)
      subst hs
      have e : adaptiveSink st false = (st, RouteMode.passthroughMode) := by
        simp [adaptiveSink, hoff]
      have hrest := (ih st).1 hoff fun b hb => hall b (by simp [hb])
      constructor
      · rw [adaptiveRun, e]
        exact hrest.1
      · intro m hm
        rw [adaptiveRun, e] at hm
        simp at hm
        rcases hm with hm | hm
        · exact hm
        · exact hrest.2 m hm
    · intro hon
      have e : adaptiveSink st s = (st, RouteMode.shuffleMode) := by
        simp [adaptiveSink, hon]
      have hrest := (ih st).2 hon
      constructor
      · rw [adaptiveRun, e]
        exact hrest.1
      · intro m hm
        rw [adaptiveRun, e] at hm
        simp at hm
        rcases hm with hm | hm
        · exact hm
        · exact hrest.2 m hm

/-- Witness for C9: an unswitched state stays passthrough on skew-free
input, and a switched state is still switched after further batches. -/
theorem adaptive_switch_one_way_witness :
    (adaptiveRun ⟨false⟩ [false, false]).1 = (⟨false⟩ : AdaptiveSharedState) ∧
      (adaptiveRun ⟨true⟩ [false, true]).1.isShuffled = true :=
  ⟨((adaptive_switch_one_way ⟨false⟩ [false, false]).1 rfl (by decide)).1,
    ((adaptive_switch_one_way ⟨true⟩ [false, true]).2 rfl).1⟩

end Doris
